import Mathlib

/-!
Verification of the prayer-times engine (masaajid/prayer-times).

The TypeScript source computes with JavaScript doubles and `Date` values.
This development embeds the arithmetic parts of the code over `ℚ`/`ℤ`:
a `Date` is its UTC timestamp in whole milliseconds (`ℤ`, relative to the
UTC midnight of the calculation date), decimal hours are `ℚ`, and the
JavaScript integer conversions are made explicit (`jsTrunc` for the `Date`
constructor and TimeClip, `jsRound` for `Math.round`, `Int.floor` for
`Math.floor`).  Transcendental solver outputs (the corrected hour-angle
results, sunrise, sunset, transit hours) enter the embedding as parameters,
since the claims under study concern the arithmetic that the engine performs
on top of those values.
-/

namespace PrayerTimes

/-- JavaScript number-to-Date conversion (TimeClip / ToIntegerOrInfinity):
truncation toward zero. -/
def jsTrunc (q : ℚ) : ℤ := if q < 0 then ⌈q⌉ else ⌊q⌋

/-- JavaScript `Math.round`: round half toward positive infinity. -/
def jsRound (q : ℚ) : ℤ := ⌊q + 1 / 2⌋

/-- ECMAScript `SecFromTime`: `floor(t / 1000) mod 60` of a millisecond
timestamp, always in `[0, 59]`.  This is what `Date#getUTCSeconds` returns. -/
def getUTCSeconds (t : ℤ) : ℤ := ⌊(t : ℚ) / 1000⌋ % 60

/-- ECMAScript `msFromTime`: `t mod 1000`, always in `[0, 999]`. -/
def msField (t : ℤ) : ℤ := t % 1000

/-- `addMinutes` from `utils/time.ts`:
`new Date(date.getTime() + minutes * 60 * 1000)`. -/
def addMinutes (t : ℤ) (minutes : ℚ) : ℤ := jsTrunc ((t : ℚ) + minutes * 60 * 1000)

/-- `addSeconds` from `utils/time.ts`:
`new Date(date.getTime() + seconds * 1000)` (the engine always passes an
integer number of seconds, produced by `Math.round`). -/
def addSeconds (t : ℤ) (seconds : ℤ) : ℤ := t + seconds * 1000

/-- `roundedMinute` from `utils/time.ts` with `RoundingMode.Nearest`:
reads `getUTCSeconds`, then adds `60 - s` seconds when `s ≥ 30` and `-s`
seconds otherwise.  The millisecond field is left untouched, exactly as in
the source. -/
def roundedMinuteNearest (t : ℤ) : ℤ :=
  addSeconds t (if 30 ≤ getUTCSeconds t then 60 - getUTCSeconds t else -getUTCSeconds t)

/-- `createUTCDateFromHours` from `engine/precision.ts`: normalizes decimal
hours into `[0, 24)` shifting whole days (the two while loops amount to
subtracting `24 * ⌊h / 24⌋`), then splits into hour, minute and second parts
with `Math.floor`, and builds the UTC timestamp.  The result is expressed in
milliseconds relative to the UTC midnight of the base date. -/
def createUTCDateFromHours (h : ℚ) : ℤ :=
  let day : ℤ := ⌊h / 24⌋
  let ah : ℚ := h - 24 * day
  let hrs : ℤ := ⌊ah⌋
  let f : ℚ := ah - hrs
  let mins : ℤ := ⌊f * 60⌋
  let secs : ℤ := ⌊(f * 60 - mins) * 60⌋
  (day * 86400 + hrs * 3600 + mins * 60 + secs) * 1000

theorem jsTrunc_intCast (k : ℤ) : jsTrunc (k : ℚ) = k := by
  unfold jsTrunc
  split <;> simp

theorem jsTrunc_eq_floor_of_nonneg {q : ℚ} (h : 0 ≤ q) : jsTrunc q = ⌊q⌋ := by
  unfold jsTrunc
  rw [if_neg (not_lt.mpr h)]

/-- `addMinutes` with a whole number of minutes is an exact integer shift. -/
theorem addMinutes_int (t k : ℤ) : addMinutes t (k : ℚ) = t + k * 60000 := by
  unfold addMinutes
  have : (t : ℚ) + (k : ℚ) * 60 * 1000 = ((t + k * 60000 : ℤ) : ℚ) := by
    push_cast; ring
  rw [this, jsTrunc_intCast]

/-- The nested floors of `createUTCDateFromHours` collapse to a single floor
at second precision: the produced timestamp is `1000 * ⌊3600 h⌋`. -/
theorem createUTCDateFromHours_eq (h : ℚ) :
    createUTCDateFromHours h = 1000 * ⌊h * 3600⌋ := by
  simp only [createUTCDateFromHours]
  have hsecs : ∀ (x : ℚ) (m : ℤ), ⌊(x - m) * 60⌋ = ⌊x * 60⌋ - m * 60 := by
    intro x m
    have : (x - m) * 60 = x * 60 - (m * 60 : ℤ) := by push_cast; ring
    rw [this, Int.floor_sub_int]
  have hf : ∀ (x : ℚ) (m : ℤ), ⌊(x - m) * 3600⌋ = ⌊x * 3600⌋ - m * 3600 := by
    intro x m
    have : (x - m) * 3600 = x * 3600 - (m * 3600 : ℤ) := by push_cast; ring
    rw [this, Int.floor_sub_int]
  set day : ℤ := ⌊h / 24⌋ with hday
  set ah : ℚ := h - 24 * day with hah
  set hrs : ℤ := ⌊ah⌋ with hhrs
  have hmins : ⌊(ah - hrs) * 60⌋ = ⌊ah * 60⌋ - hrs * 60 := hsecs ah hrs
  rw [hmins]
  have hsec2 : ⌊((ah - hrs) * 60 - ((⌊ah * 60⌋ - hrs * 60 : ℤ) : ℚ)) * 60⌋
      = ⌊ah * 3600⌋ - hrs * 3600 - (⌊ah * 60⌋ - hrs * 60) * 60 := by
    have : ((ah - hrs) * 60 - ((⌊ah * 60⌋ - hrs * 60 : ℤ) : ℚ)) * 60
        = ah * 3600 - ((hrs * 3600 + (⌊ah * 60⌋ - hrs * 60) * 60 : ℤ) : ℚ) := by
      push_cast; ring
    rw [this, Int.floor_sub_int]
    ring
  rw [hsec2]
  have hah3600 : ⌊ah * 3600⌋ = ⌊h * 3600⌋ - day * 86400 := by
    have : ah * 3600 = h * 3600 - ((day * 86400 : ℤ) : ℚ) := by
      rw [hah]; push_cast; ring
    rw [this, Int.floor_sub_int]
  rw [hah3600]
  ring

/-- Seconds field of an exact multiple of 1000 milliseconds. -/
theorem getUTCSeconds_of_sec (s : ℤ) : getUTCSeconds (1000 * s) = s % 60 := by
  unfold getUTCSeconds
  have : ((1000 * s : ℤ) : ℚ) / 1000 = (s : ℚ) := by push_cast; ring
  rw [this, Int.floor_intCast]

/-- Shifting by whole minutes does not change the seconds field. -/
theorem getUTCSeconds_add_min (t k : ℤ) :
    getUTCSeconds (t + k * 60000) = getUTCSeconds t := by
  unfold getUTCSeconds
  have : ((t + k * 60000 : ℤ) : ℚ) / 1000 = (t : ℚ) / 1000 + ((k * 60 : ℤ) : ℚ) := by
    push_cast; ring
  rw [this, Int.floor_add_int, Int.add_mul_emod_self]

/-- Rounding to the nearest minute commutes with whole-minute shifts. -/
theorem roundedMinuteNearest_add_min (t k : ℤ) :
    roundedMinuteNearest (t + k * 60000) = roundedMinuteNearest t + k * 60000 := by
  unfold roundedMinuteNearest addSeconds
  rw [getUTCSeconds_add_min]
  split <;> ring

/-! ### Data model (`src/types.ts`, `lib/methods/methods.ts`) -/

/-- `PrayerName` from `types.ts`: the keys a user adjustments map may carry.
Note that `sunset` is not an adjustable prayer name. -/
inductive PrayerName
  | fajr | sunrise | dhuhr | asr | maghrib | isha
deriving DecidableEq, Repr

/-- `PrayerTimes`: the record of computed instants, each a UTC timestamp in
milliseconds relative to the UTC midnight of the calculation date.  Field
order follows the source record: fajr, sunrise, dhuhr, asr, sunset, maghrib,
isha. -/
structure PrayerTimesZ where
  fajr : ℤ
  sunrise : ℤ
  dhuhr : ℤ
  asr : ℤ
  sunset : ℤ
  maghrib : ℤ
  isha : ℤ
deriving DecidableEq, Repr

/-- Record field read `times[prayerName]`. -/
def getPrayer (t : PrayerTimesZ) : PrayerName → ℤ
  | .fajr => t.fajr
  | .sunrise => t.sunrise
  | .dhuhr => t.dhuhr
  | .asr => t.asr
  | .maghrib => t.maghrib
  | .isha => t.isha

/-- Record field write `times[prayerName] = v`. -/
def setPrayer (t : PrayerTimesZ) (p : PrayerName) (v : ℤ) : PrayerTimesZ :=
  match p with
  | .fajr => { t with fajr := v }
  | .sunrise => { t with sunrise := v }
  | .dhuhr => { t with dhuhr := v }
  | .asr => { t with asr := v }
  | .maghrib => { t with maghrib := v }
  | .isha => { t with isha := v }

theorem getPrayer_setPrayer_same (t : PrayerTimesZ) (p : PrayerName) (v : ℤ) :
    getPrayer (setPrayer t p v) p = v := by
  cases p <;> rfl

theorem getPrayer_setPrayer_ne (t : PrayerTimesZ) (p q : PrayerName) (v : ℤ)
    (h : q ≠ p) : getPrayer (setPrayer t p v) q = getPrayer t q := by
  cases p <;> cases q <;> first | rfl | exact absurd rfl h

theorem setPrayer_sunset (t : PrayerTimesZ) (p : PrayerName) (v : ℤ) :
    (setPrayer t p v).sunset = t.sunset := by
  cases p <;> rfl

/-- A method parameter value as written in the registry: either a bare
number (an angle in degrees) or a string of the form `"k min"`.  The string
`"k min"` is represented by `minStr k`. -/
inductive RawValue
  | num (q : ℚ)
  | minStr (q : ℚ)
deriving DecidableEq, Repr

/-- The result type of `parseAngleOrInterval` from `methods.ts`. -/
inductive AngleOrInterval
  | angle (value : ℚ)
  | interval (value : ℚ)
deriving DecidableEq, Repr

/-- `parseAngleOrInterval` from `methods.ts`: a bare number parses as an
angle, a `"k min"` string parses as an interval of `k` minutes. -/
def parseAngleOrInterval : RawValue → AngleOrInterval
  | .num q => .angle q
  | .minStr k => .interval k

inductive MidnightMode
  | Standard | Jafari
deriving DecidableEq, Repr

inductive Shafaq
  | general | ahmer | abyad
deriving DecidableEq, Repr

/-- Per-prayer minute adjustments of a method (`adjustments` field of a
registry entry).  An absent field is 0, which the engine skips by the same
falsy test as an absent one.  Field order: fajr, sunrise, dhuhr, asr,
maghrib, isha. -/
structure Adjustments where
  fajr : ℚ
  sunrise : ℚ
  dhuhr : ℚ
  asr : ℚ
  maghrib : ℚ
  isha : ℚ
deriving DecidableEq, Repr

def Adjustments.zero : Adjustments := ⟨0, 0, 0, 0, 0, 0⟩

/-- `MethodParams` from `types.ts` (the fields the engine consumes).  Field
order: fajr, isha, maghrib, midnight, shafaq, adjustments. -/
structure MethodParams where
  fajr : ℚ
  isha : RawValue
  maghrib : Option RawValue
  midnight : MidnightMode
  shafaq : Option Shafaq
  adjustments : Adjustments
deriving DecidableEq, Repr

/-- `MethodCode`: the method registry keys of `CALCULATION_METHODS`. -/
inductive MethodCode
  | ISNA | MWL | Egypt | UmmAlQura | Qatar | Dubai | JAKIM | Kemenag
  | Singapore | France12 | France15 | France18 | Turkey | Russia
  | Moonsighting | Tehran | Jafari | Karachi | Custom
deriving DecidableEq, Repr

/-- `CALCULATION_METHODS` from `lib/methods/methods.ts`, transcribed entry by
entry.  `MethodParams` fields: fajr, isha, maghrib, midnight, shafaq,
adjustments; `Adjustments` fields: fajr, sunrise, dhuhr, asr, maghrib,
isha. -/
def CALCULATION_METHODS : MethodCode → MethodParams
  | .ISNA =>
      ⟨15, .num 15, some (.minStr 1), .Standard, none, ⟨-12.5, 0, 5, -1, 2, -1.5⟩⟩
  | .MWL =>
      ⟨18, .num 17, some (.minStr 1), .Standard, none, ⟨0, 0, 1, 0, 0, 0⟩⟩
  | .Egypt =>
      ⟨19.5, .num 17.5, some (.minStr 1), .Standard, none, ⟨-0.5, -0.5, 0, 0.5, -1, 0⟩⟩
  | .UmmAlQura =>
      ⟨18.5, .minStr 90, some (.minStr 1), .Standard, none, Adjustments.zero⟩
  | .Qatar =>
      ⟨18, .minStr 90, some (.minStr 1), .Standard, none, ⟨-0.5, 0, 0, 0, 2, 3⟩⟩
  | .Dubai =>
      ⟨18.2, .num 18.2, some (.minStr 1), .Standard, none, ⟨0, -3.5, 3, 1.5, 2.5, 0.5⟩⟩
  | .JAKIM =>
      ⟨18, .num 18, some (.minStr 1), .Standard, none, ⟨1, 0, 2, 1, 0, 1⟩⟩
  | .Kemenag =>
      ⟨20, .num 18, some (.minStr 1), .Standard, none, ⟨2, -4, 3, 2, 2, 2⟩⟩
  | .Singapore =>
      ⟨20, .num 18, some (.minStr 1), .Standard, none, ⟨0.5, 0.5, 1, 1, 0, 1⟩⟩
  | .France12 =>
      ⟨12, .num 12, some (.minStr 1), .Standard, none, Adjustments.zero⟩
  | .France15 =>
      ⟨15, .num 15, some (.minStr 1), .Standard, none, Adjustments.zero⟩
  | .France18 =>
      ⟨18, .num 18, some (.minStr 1), .Standard, none, Adjustments.zero⟩
  | .Turkey =>
      ⟨18, .num 17, some (.minStr 1), .Standard, none, ⟨0, -7, 5, 5.5, 7, 1.5⟩⟩
  | .Russia =>
      ⟨16, .num 15, some (.minStr 1), .Standard, none, ⟨-0.5, -0.5, -0.5, 0.5, -1.5, -0.5⟩⟩
  | .Moonsighting =>
      ⟨18, .num 18, some (.minStr 1), .Standard, some .general, ⟨0, 0, 5, 0, 3, 0⟩⟩
  | .Tehran =>
      ⟨17.7, .num 14, some (.num 4.5), .Jafari, none, Adjustments.zero⟩
  | .Jafari =>
      ⟨16, .num 14, some (.num 4), .Jafari, none, Adjustments.zero⟩
  | .Karachi =>
      ⟨18, .num 18, some (.minStr 1), .Standard, none, ⟨0, 0, 1, 0, 0, 0⟩⟩
  | .Custom =>
      ⟨18, .num 17, some (.minStr 1), .Standard, none, Adjustments.zero⟩

/-! ### Moonsighting seasonal twilight (`utils/astronomy.ts`,
`engine/astronomical.ts`, `utils/polar.ts`) -/

/-- `isLeapYear` from `utils/astronomy.ts`. -/
def isLeapYear (year : ℤ) : Bool :=
  if year % 4 ≠ 0 then false
  else if year % 100 = 0 ∧ year % 400 ≠ 0 then false
  else true

/-- `daysSinceSolstice` from `utils/astronomy.ts`.  The day of year is the
1-based ordinal of the calculation date. -/
def daysSinceSolstice (dayOfYear year : ℤ) (latitude : ℚ) : ℤ :=
  let northernOffset : ℤ := 10
  let southernOffset : ℤ := if isLeapYear year then 173 else 172
  let daysInYear : ℤ := if isLeapYear year then 366 else 365
  if 0 ≤ latitude then
    let d := dayOfYear + northernOffset
    if daysInYear ≤ d then d - daysInYear else d
  else
    let d := dayOfYear - southernOffset
    if d < 0 then d + daysInYear else d

/-- `seasonAdjustedMorningTwilight` from `engine/astronomical.ts`: piecewise
linear blend of the four Fajr coefficients, applied as minutes before the
sunrise instant (`addSeconds(sunrise, round(adjustment * -60))`). -/
def seasonAdjustedMorningTwilight (latitude : ℚ) (dayOfYear year : ℤ)
    (sunrise : ℤ) : ℤ :=
  let a : ℚ := 75 + (28.65 / 55) * |latitude|
  let b : ℚ := 75 + (19.44 / 55) * |latitude|
  let c : ℚ := 75 + (32.74 / 55) * |latitude|
  let d : ℚ := 75 + (48.1 / 55) * |latitude|
  let dyy : ℤ := daysSinceSolstice dayOfYear year latitude
  let adjustment : ℚ :=
    if dyy < 91 then a + ((b - a) / 91) * dyy
    else if dyy < 137 then b + ((c - b) / 46) * (dyy - 91)
    else if dyy < 183 then c + ((d - c) / 46) * (dyy - 137)
    else if dyy < 229 then d + ((c - d) / 46) * (dyy - 183)
    else if dyy < 275 then c + ((b - c) / 46) * (dyy - 229)
    else b + ((a - b) / 91) * (dyy - 275)
  addSeconds sunrise (jsRound (adjustment * (-60)))

/-- `seasonAdjustedEveningTwilight` from `engine/astronomical.ts`: the
engine copy.  For shafaq `general` it uses the same coefficient tuple as for
`abyad`. -/
def seasonAdjustedEveningTwilight (latitude : ℚ) (dayOfYear year : ℤ)
    (sunset : ℤ) (shafaq : Shafaq) : ℤ :=
  let a : ℚ :=
    match shafaq with
    | .ahmer => 62 + (17.4 / 55) * |latitude|
    | .abyad => 75 + (25.6 / 55) * |latitude|
    | .general => 75 + (25.6 / 55) * |latitude|
  let b : ℚ :=
    match shafaq with
    | .ahmer => 62 - (7.16 / 55) * |latitude|
    | .abyad => 75 + (7.16 / 55) * |latitude|
    | .general => 75 + (7.16 / 55) * |latitude|
  let c : ℚ :=
    match shafaq with
    | .ahmer => 62 + (5.12 / 55) * |latitude|
    | .abyad => 75 + (36.84 / 55) * |latitude|
    | .general => 75 + (36.84 / 55) * |latitude|
  let d : ℚ :=
    match shafaq with
    | .ahmer => 62 + (19.44 / 55) * |latitude|
    | .abyad => 75 + (81.84 / 55) * |latitude|
    | .general => 75 + (81.84 / 55) * |latitude|
  let dyy : ℤ := daysSinceSolstice dayOfYear year latitude
  let adjustment : ℚ :=
    if dyy < 91 then a + ((b - a) / 91) * dyy
    else if dyy < 137 then b + ((c - b) / 46) * (dyy - 91)
    else if dyy < 183 then c + ((d - c) / 46) * (dyy - 137)
    else if dyy < 229 then d + ((c - d) / 46) * (dyy - 183)
    else if dyy < 275 then c + ((b - c) / 46) * (dyy - 229)
    else b + ((a - b) / 91) * (dyy - 275)
  addSeconds sunset (jsRound (adjustment * 60))

/-- `seasonAdjustedEveningTwilight` from `utils/polar.ts`: the second copy
of the same function living in the high-latitude utilities.  Its `general`
coefficient row differs from the engine copy. -/
def polarSeasonAdjustedEveningTwilight (latitude : ℚ) (dayOfYear year : ℤ)
    (baseTime : ℤ) (shafaq : Shafaq) : ℤ :=
  let a : ℚ :=
    match shafaq with
    | .ahmer => 62 + (17.4 / 55) * |latitude|
    | .abyad => 75 + (25.6 / 55) * |latitude|
    | .general => 75 + (25.6 / 55) * |latitude|
  let b : ℚ :=
    match shafaq with
    | .ahmer => 62 - (7.16 / 55) * |latitude|
    | .abyad => 75 + (7.16 / 55) * |latitude|
    | .general => 75 + (2.05 / 55) * |latitude|
  let c : ℚ :=
    match shafaq with
    | .ahmer => 62 + (5.12 / 55) * |latitude|
    | .abyad => 75 + (36.84 / 55) * |latitude|
    | .general => 75 - (9.21 / 55) * |latitude|
  let d : ℚ :=
    match shafaq with
    | .ahmer => 62 + (19.44 / 55) * |latitude|
    | .abyad => 75 + (81.84 / 55) * |latitude|
    | .general => 75 + (6.14 / 55) * |latitude|
  let dyy : ℤ := daysSinceSolstice dayOfYear year latitude
  let adjustment : ℚ :=
    if dyy < 91 then a + ((b - a) / 91) * dyy
    else if dyy < 137 then b + ((c - b) / 46) * (dyy - 91)
    else if dyy < 183 then c + ((d - c) / 46) * (dyy - 137)
    else if dyy < 229 then d + ((c - d) / 46) * (dyy - 183)
    else if dyy < 275 then c + ((b - c) / 46) * (dyy - 229)
    else b + ((a - b) / 91) * (dyy - 275)
  addSeconds baseTime (jsRound (adjustment * 60))

/-! ### Prayer time calculators (`engine/precision.ts`)

The transcendental corrected hour-angle solver outputs (decimal UTC hours
for sunrise, sunset, transit, Asr, and the angle-based Fajr and Isha
candidates of the current date, plus the sunrise of the following date)
enter the embedding as parameters, collected in `SolarDayOutputs`.  The
claims under study are about the arithmetic the engine performs on these
values. -/

/-- The decimal-hour solver outputs consumed by
`calculatePrecisePrayerTimes`.  Field order: sunriseHours, sunsetHours,
transitHours, asrHours, fajrAngleHours, ishaAngleHours, maghribAngleHours,
tomorrowSunriseHours. -/
structure SolarDayOutputs where
  sunriseHours : ℚ
  sunsetHours : ℚ
  transitHours : ℚ
  asrHours : ℚ
  fajrAngleHours : ℚ
  ishaAngleHours : ℚ
  maghribAngleHours : ℚ
  tomorrowSunriseHours : ℚ
deriving DecidableEq, Repr

/-- `calculateFajrTime` from `engine/precision.ts`, returning decimal UTC
hours.  `angleFajr` is the value of `solarTime.hourAngle(-params.fajr,
false)`.  The Moonsighting special case replaces it by the night-seventh
value, and the season-adjusted safe fallback replaces the candidate whenever
the safe time is later. -/
def calculateFajrTime (_params : MethodParams) (methodCode : Option MethodCode)
    (latitude : ℚ) (dayOfYear year : ℤ) (o : SolarDayOutputs)
    (angleFajr : ℚ) : ℚ :=
  let fajrTime0 : ℚ := angleFajr
  let sunriseMs : ℤ := createUTCDateFromHours o.sunriseHours
  let fajrTime1 : ℚ :=
    if methodCode = some .Moonsighting ∧ 55 ≤ |latitude| then
      let tomorrowSunriseMs : ℤ :=
        86400000 + createUTCDateFromHours o.tomorrowSunriseHours
      let sunsetMs : ℤ := createUTCDateFromHours o.sunsetHours
      let night : ℚ := ((tomorrowSunriseMs - sunsetMs : ℤ) : ℚ) / 1000
      let adjusted : ℤ := jsTrunc ((sunriseMs : ℚ) - (night / 7) * 1000)
      (adjusted : ℚ) / 3600000
    else fajrTime0
  if methodCode = some .Moonsighting then
    let safeMs : ℤ :=
      seasonAdjustedMorningTwilight latitude dayOfYear year sunriseMs
    if fajrTime1 < (safeMs : ℚ) / 3600000 then (safeMs : ℚ) / 3600000
    else fajrTime1
  else fajrTime1

/-- `calculateMaghribTime` from `engine/precision.ts`, returning decimal UTC
hours.  `angleMaghrib` is the value of
`solarTime.hourAngle(-maghribParsed.value, true)`. -/
def calculateMaghribTime (params : MethodParams) (o : SolarDayOutputs)
    (angleMaghrib : ℚ) : ℚ :=
  match params.maghrib with
  | none => o.sunsetHours
  | some v =>
    match parseAngleOrInterval v with
    | .angle _ => angleMaghrib
    | .interval k => o.sunsetHours + k / 60

/-- `calculateIshaTime` from `engine/precision.ts`, returning decimal UTC
hours.  `angleIsha` is the value of
`solarTime.hourAngle(-ishaParsed.value, true)`.  An interval Isha is a fixed
offset from sunset; the Moonsighting special case replaces the candidate by
the night-seventh value, and the season-adjusted safe fallback replaces it
whenever the safe time is earlier. -/
def calculateIshaTime (params : MethodParams) (methodCode : Option MethodCode)
    (latitude : ℚ) (dayOfYear year : ℤ) (o : SolarDayOutputs)
    (angleIsha : ℚ) : ℚ :=
  let ishaTime0 : ℚ :=
    match parseAngleOrInterval params.isha with
    | .angle _ => angleIsha
    | .interval k => o.sunsetHours + k / 60
  let sunsetMs : ℤ := createUTCDateFromHours o.sunsetHours
  let ishaTime1 : ℚ :=
    if methodCode = some .Moonsighting ∧ 55 ≤ |latitude| then
      let tomorrowSunriseMs : ℤ :=
        86400000 + createUTCDateFromHours o.tomorrowSunriseHours
      let night : ℚ := ((tomorrowSunriseMs - sunsetMs : ℤ) : ℚ) / 1000
      let adjusted : ℤ := jsTrunc ((sunsetMs : ℚ) + (night / 7) * 1000)
      (adjusted : ℚ) / 3600000
    else ishaTime0
  if methodCode = some .Moonsighting then
    let shafaq : Shafaq :=
      match params.shafaq with
      | some .ahmer => .ahmer
      | some .abyad => .abyad
      | _ => .general
    let safeMs : ℤ :=
      seasonAdjustedEveningTwilight latitude dayOfYear year sunsetMs shafaq
    if (safeMs : ℚ) / 3600000 < ishaTime1 then (safeMs : ℚ) / 3600000
    else ishaTime1
  else ishaTime1

/-- The method-adjustment block of `calculatePrecisePrayerTimes`: each
truthy per-prayer adjustment is applied with `addMinutes`; `sunset` is never
adjusted. -/
def applyMethodAdjustments (t : PrayerTimesZ) (adj : Adjustments) : PrayerTimesZ :=
  ⟨if adj.fajr ≠ 0 then addMinutes t.fajr adj.fajr else t.fajr,
   if adj.sunrise ≠ 0 then addMinutes t.sunrise adj.sunrise else t.sunrise,
   if adj.dhuhr ≠ 0 then addMinutes t.dhuhr adj.dhuhr else t.dhuhr,
   if adj.asr ≠ 0 then addMinutes t.asr adj.asr else t.asr,
   t.sunset,
   if adj.maghrib ≠ 0 then addMinutes t.maghrib adj.maghrib else t.maghrib,
   if adj.isha ≠ 0 then addMinutes t.isha adj.isha else t.isha⟩

/-- The rounding block of `calculatePrecisePrayerTimes`: every field is
rounded with `roundedMinute(..., RoundingMode.Nearest)`. -/
def roundTimes (t : PrayerTimesZ) : PrayerTimesZ :=
  ⟨roundedMinuteNearest t.fajr, roundedMinuteNearest t.sunrise,
   roundedMinuteNearest t.dhuhr, roundedMinuteNearest t.asr,
   roundedMinuteNearest t.sunset, roundedMinuteNearest t.maghrib,
   roundedMinuteNearest t.isha⟩

/-- The raw (pre-adjustment, pre-rounding) instants built by
`calculatePrecisePrayerTimes` from the solver outputs. -/
def rawPrayerTimes (params : MethodParams) (methodCode : Option MethodCode)
    (latitude : ℚ) (dayOfYear year : ℤ) (o : SolarDayOutputs) : PrayerTimesZ :=
  ⟨createUTCDateFromHours
      (calculateFajrTime params methodCode latitude dayOfYear year o
        o.fajrAngleHours),
   createUTCDateFromHours o.sunriseHours,
   createUTCDateFromHours o.transitHours,
   createUTCDateFromHours o.asrHours,
   createUTCDateFromHours o.sunsetHours,
   createUTCDateFromHours (calculateMaghribTime params o o.maghribAngleHours),
   createUTCDateFromHours
      (calculateIshaTime params methodCode latitude dayOfYear year o
        o.ishaAngleHours)⟩

/-- `calculatePrecisePrayerTimes` from `engine/precision.ts`: build the raw
instants from the solver outputs, apply the method adjustments, then round
every instant to the nearest minute. -/
def calculatePrecisePrayerTimes (params : MethodParams)
    (methodCode : Option MethodCode) (latitude : ℚ) (dayOfYear year : ℤ)
    (o : SolarDayOutputs) : PrayerTimesZ :=
  roundTimes
    (applyMethodAdjustments
      (rawPrayerTimes params methodCode latitude dayOfYear year o)
      params.adjustments)

/-- `applyUserAdjustments` from `engine/calculator.ts`: iterate over the
entries of the user adjustments map, shifting each named prayer with
`addMinutes` except `sunrise`, which is skipped. -/
def applyUserAdjustments (times : PrayerTimesZ)
    (entries : List (PrayerName × ℚ)) : PrayerTimesZ :=
  entries.foldl
    (fun acc e =>
      if e.1 = .sunrise then acc
      else setPrayer acc e.1 (addMinutes (getPrayer acc e.1) e.2))
    times

/-- The post-engine stage of `calculatePrayerTimes` in
`engine/calculator.ts` relevant to adjustment composition: the engine result
(already rounded) receives the user adjustments. -/
def orchestratedTimes (params : MethodParams) (methodCode : Option MethodCode)
    (latitude : ℚ) (dayOfYear year : ℤ) (o : SolarDayOutputs)
    (userAdjustments : List (PrayerName × ℚ)) : PrayerTimesZ :=
  applyUserAdjustments
    (calculatePrecisePrayerTimes params methodCode latitude dayOfYear year o)
    userAdjustments

/-! ### Result validator (`validateCalculationResults` in
`engine/precision.ts`) -/

/-- The issue messages the validator can push, one constructor per `push`
site.  The gap constructors carry the rounded minute count interpolated into
the message text. -/
inductive Issue
  | fajrNotBeforeSunrise
  | sunriseNotBeforeDhuhr
  | dhuhrNotBeforeAsr
  | asrNotBeforeMaghrib
  | maghribNotBeforeIsha
  | largeFajrGapHighLat (roundedMinutes : ℤ)
  | fajrGapUnusuallyLarge
  | largeIshaGapHighLat (roundedMinutes : ℤ)
  | ishaGapUnusuallyLarge
  | extremeDayLength
  | dayLengthUnusual
deriving DecidableEq, Repr

/-- The critical-issue filter: the source keeps every issue whose message
contains none of the substrings "at high latitude", "at latitude",
"Extreme day length".  The messages of `largeFajrGapHighLat` and
`largeIshaGapHighLat` contain "at high latitude"; the message of
`extremeDayLength` contains both "at latitude" and "Extreme day length";
the message of `dayLengthUnusual` ("Day length is unusual for high
latitude") contains none of the three substrings, so it counts as
critical. -/
def Issue.isCritical : Issue → Bool
  | .largeFajrGapHighLat _ => false
  | .largeIshaGapHighLat _ => false
  | .extremeDayLength => false
  | _ => true

/-- `validateCalculationResults` from `engine/precision.ts`: ordering
checks, latitude-graduated gap checks, day-length checks, and the
critical-issue validity verdict.  Returns the issue list and `isValid`. -/
def validateCalculationResults (times : PrayerTimesZ) (latitude : ℚ) :
    List Issue × Bool :=
  let ordering : List Issue :=
    (if times.sunrise ≤ times.fajr then [.fajrNotBeforeSunrise] else []) ++
    (if times.dhuhr ≤ times.sunrise then [.sunriseNotBeforeDhuhr] else []) ++
    (if times.asr ≤ times.dhuhr then [.dhuhrNotBeforeAsr] else []) ++
    (if times.maghrib ≤ times.asr then [.asrNotBeforeMaghrib] else []) ++
    (if times.isha ≤ times.maghrib then [.maghribNotBeforeIsha] else [])
  let latitudeAbs : ℚ := |latitude|
  let fajrGapThreshold : ℚ :=
    if 60 ≤ latitudeAbs then 300 else if 48 ≤ latitudeAbs then 240 else 180
  let ishaGapThreshold : ℚ :=
    if 60 ≤ latitudeAbs then 360 else if 48 ≤ latitudeAbs then 300 else 240
  let fajrToSunrise : ℚ := ((times.sunrise - times.fajr : ℤ) : ℚ) / 60000
  let fajrGap : List Issue :=
    if fajrGapThreshold < fajrToSunrise then
      if 48 ≤ latitudeAbs then [.largeFajrGapHighLat (jsRound fajrToSunrise)]
      else [.fajrGapUnusuallyLarge]
    else []
  let maghribToIsha : ℚ := ((times.isha - times.maghrib : ℤ) : ℚ) / 60000
  let ishaGap : List Issue :=
    if ishaGapThreshold < maghribToIsha then
      if 48 ≤ latitudeAbs then [.largeIshaGapHighLat (jsRound maghribToIsha)]
      else [.ishaGapUnusuallyLarge]
    else []
  let dayLength : ℚ := ((times.maghrib - times.sunrise : ℤ) : ℚ) / 3600000
  let dayLengthIssues : List Issue :=
    if 60 ≤ latitudeAbs then
      if dayLength < 2 ∨ 22 < dayLength then [.extremeDayLength] else []
    else if 60 < latitudeAbs then
      if dayLength < 4 ∨ 20 < dayLength then [.dayLengthUnusual] else []
    else []
  let issues := ordering ++ fajrGap ++ ishaGap ++ dayLengthIssues
  (issues, (issues.filter (fun i => i.isCritical)).isEmpty)

/-! ### Sunnah times (`extensions/sunnah-times.ts`) -/

/-- The five derived Sunnah instants plus the night duration in minutes.
Field order follows the returned object: middleOfNight, lastThirdOfNight,
firstThirdOfNight, duhaStart, duhaEnd, nightDuration. -/
structure SunnahTimesZ where
  middleOfNight : ℤ
  lastThirdOfNight : ℤ
  firstThirdOfNight : ℤ
  duhaStart : ℤ
  duhaEnd : ℤ
  nightDuration : ℤ
deriving DecidableEq, Repr

/-- `roundToNearestMinute` from `extensions/sunnah-times.ts`:
`setSeconds(0, 0)` clears the second and millisecond fields (subtracting
the seconds field times 1000 and the millisecond field), then one minute is
added when the seconds field of the original date is at least 30. -/
def roundToNearestMinuteSunnah (t : ℤ) : ℤ :=
  if 30 ≤ getUTCSeconds t then t - getUTCSeconds t * 1000 - msField t + 60000
  else t - getUTCSeconds t * 1000 - msField t

/-- The derivation part of `calculateSunnahTimes` from
`extensions/sunnah-times.ts` (after both days validated): inputs are the
millisecond timestamps of today's maghrib, tomorrow's fajr, today's sunrise
and today's dhuhr. -/
def calculateSunnahTimes (maghrib tomorrowFajr sunrise dhuhr : ℤ) :
    SunnahTimesZ :=
  let nightDurationMs : ℤ := tomorrowFajr - maghrib
  let firstThird : ℤ := jsTrunc ((maghrib : ℚ) + (nightDurationMs : ℚ) / 3)
  let middle : ℤ := jsTrunc ((maghrib : ℚ) + (nightDurationMs : ℚ) / 2)
  let lastThird : ℤ := jsTrunc ((maghrib : ℚ) + (nightDurationMs : ℚ) * (2 / 3))
  let duhaStart : ℤ := sunrise + 15 * 60 * 1000
  let duhaEnd : ℤ := dhuhr - 15 * 60 * 1000
  ⟨roundToNearestMinuteSunnah middle,
   roundToNearestMinuteSunnah lastThird,
   roundToNearestMinuteSunnah firstThird,
   roundToNearestMinuteSunnah duhaStart,
   roundToNearestMinuteSunnah duhaEnd,
   jsRound ((nightDurationMs : ℚ) / 60000)⟩

/-! ### Nutation (`utils/astronomy.ts`)

The degree-based sine is transcendental; the embedding abstracts it as a
function parameter `sinD : ℚ → ℚ` (the claims under study only concern the
coefficients and signs of the polynomial combination). -/

/-- `nutationInLongitude` from `utils/astronomy.ts`: the four-term
abbreviation, combined as `term1 - term2 - term3 + term4` in the source. -/
def nutationInLongitude (sinD : ℚ → ℚ) (_julianCentury L0 Lp Omega : ℚ) : ℚ :=
  let term1 : ℚ := (-17.2 / 3600) * sinD Omega
  let term2 : ℚ := (1.32 / 3600) * sinD (2 * L0)
  let term3 : ℚ := (0.23 / 3600) * sinD (2 * Lp)
  let term4 : ℚ := (0.21 / 3600) * sinD (2 * Omega)
  term1 - term2 - term3 + term4

/-- A concrete degree-based sine fragment used to evaluate the nutation
formula at exactly representable points: it agrees with the real sine at 0
and 90 degrees (see `sinDemo_agrees_with_real_sine`). -/
def sinDemo (x : ℚ) : ℚ := if x = 90 then 1 else 0

/-! ### Error handling (`engine/calculator.ts`, `api/prayer-times.ts`)

`calculatePrayerTimes` wraps its whole body in a try block; any thrown
error is caught and converted into a fallback result.  The embedding keeps
the fallible part as an `Except`-valued function and the catch as a total
wrapper.  Stages that cannot affect the control flow of the claims (timezone
conversion, which returns its input unchanged; the high-latitude repair,
which only replaces NaN instants; the Hanafi Asr substitution) are omitted
from the body. -/

/-- A warning pushed by `calculatePrayerTimes`, tagged by push site. -/
inductive Warn
  | calcFailed (msg : String)
  | polarRegion (reason : String)
  | notConverged
  | validation (i : Issue)
deriving DecidableEq, Repr

/-- `CalculationResult` from `engine/calculator.ts` (times, isValid,
warnings). -/
structure CalculationResultZ where
  times : PrayerTimesZ
  isValid : Bool
  warnings : List Warn
deriving DecidableEq, Repr

/-- The configuration-dependent inputs of `calculatePrayerTimes`:
the outcome of `validateConfig`, the parsed coordinates and date parts, the
user adjustments, the polar-condition check outcome, and the solver
outputs. -/
structure CalcConfigZ where
  configValid : Bool
  configErrorMsg : String
  method : MethodCode
  latitude : ℚ
  dayOfYear : ℤ
  year : ℤ
  userAdjustments : List (PrayerName × ℚ)
  handlePolarRegions : Bool
  polarReason : Option String
  solar : SolarDayOutputs
deriving DecidableEq, Repr

/-- `createFallbackTimes` from `engine/calculator.ts`: fixed clock times
5:00, 6:00, 12:00, 15:00, 18:00, 18:05, 19:30 relative to the midnight of
the calculation date. -/
def createFallbackTimes : PrayerTimesZ :=
  ⟨5 * 3600000, 6 * 3600000, 12 * 3600000, 15 * 3600000, 18 * 3600000,
   18 * 3600000 + 5 * 60000, 19 * 3600000 + 30 * 60000⟩

/-- The body of the try block of `calculatePrayerTimes` after the throwing
checks: precision calculation, user adjustments, final validation.  The
source sets `converged = true` unconditionally, so the non-convergence
warning is unreachable and no `notConverged` warning is pushed here. -/
def calcBody (c : CalcConfigZ) (warnings0 : List Warn) :
    PrayerTimesZ × List Warn × Bool :=
  let params := CALCULATION_METHODS c.method
  let precisionTimes :=
    calculatePrecisePrayerTimes params (some c.method) c.latitude c.dayOfYear
      c.year c.solar
  let times := applyUserAdjustments precisionTimes c.userAdjustments
  let v := validateCalculationResults times c.latitude
  let warnings1 :=
    if v.2 = false then warnings0 ++ v.1.map Warn.validation else warnings0
  (times, warnings1, v.2)

/-- The try block of `calculatePrayerTimes` from `engine/calculator.ts`:
configuration validation failure and an unhandled polar condition throw;
otherwise the calculation body runs (collecting a polar warning when
applicable). -/
def calculatePrayerTimesInner (c : CalcConfigZ) :
    Except String (PrayerTimesZ × List Warn × Bool) :=
  if ¬ c.configValid then
    .error ("Configuration validation failed: " ++ c.configErrorMsg)
  else
    match c.polarReason, c.handlePolarRegions with
    | some reason, false =>
        .error ("Cannot calculate prayer times in polar regions: " ++ reason)
    | some reason, true => .ok (calcBody c [Warn.polarRegion reason])
    | none, _ => .ok (calcBody c [])

/-- `calculatePrayerTimes` from `engine/calculator.ts`: the catch clause
turns any thrown error into a fallback result with `isValid = false` and a
single warning naming the failure. -/
def calculatePrayerTimesTotal (c : CalcConfigZ) : CalculationResultZ :=
  match calculatePrayerTimesInner c with
  | .ok (t, w, valid) => ⟨t, valid, w⟩
  | .error e =>
      ⟨createFallbackTimes, false, [Warn.calcFailed ("Calculation failed: " ++ e)]⟩

/-- The date inputs accepted by `PrayerTimeCalculator#parseDate`, with the
environment-dependent outcomes (JS `Date` parsing, `getFullYear`) recorded
as data. -/
inductive DateInputZ
  | noneInput
  | dateObj (t : ℤ) (valid : Bool)
  | strInput (parsed : Option ℤ)
  | numInput (t : ℤ) (yearOfT : ℤ)
deriving DecidableEq, Repr

/-- `PrayerTimeCalculator#parseDate` from `api/prayer-times.ts`. -/
def parseDate (now : ℤ) : DateInputZ → Except String ℤ
  | .noneInput => .ok now
  | .dateObj t valid =>
      if valid then .ok t else .error "Invalid Date object provided"
  | .strInput (some t) => .ok t
  | .strInput none => .error "Invalid date string"
  | .numInput t y =>
      if y < 1900 ∨ 2200 < y then .error "Date timestamp appears to be invalid"
      else .ok t

/-- The typed error thrown by `PrayerTimeCalculator#calculate`: either the
wrapped date-parsing failure or the invalid-result failure carrying the
engine warnings that make up the reason text. -/
inductive CalcError
  | parseError (msg : String)
  | invalidResult (warnings : List Warn)
deriving DecidableEq, Repr

/-- `PrayerTimeCalculator#calculate` from `api/prayer-times.ts`: parse the
date (wrapping a parse failure), run the engine, and throw exactly when the
engine result is marked invalid. -/
def calculatorCalculate (now : ℤ) (input : DateInputZ)
    (configOf : ℤ → CalcConfigZ) : Except CalcError PrayerTimesZ :=
  match parseDate now input with
  | .error e =>
      .error (.parseError ("Failed to calculate prayer times: " ++ e))
  | .ok d =>
      let result := calculatePrayerTimesTotal (configOf d)
      if result.isValid then .ok result.times
      else .error (.invalidResult result.warnings)

/-! ### General helper lemmas -/

theorem floor_floor_div (q : ℚ) (n : ℤ) (hn : 0 < n) :
    ⌊((⌊q⌋ : ℤ) : ℚ) / (n : ℚ)⌋ = ⌊q / (n : ℚ)⌋ := by
  have hnq : (0 : ℚ) < (n : ℚ) := by exact_mod_cast hn
  have h1 : (⌊q / (n : ℚ)⌋ : ℚ) ≤ ((⌊q⌋ : ℤ) : ℚ) / (n : ℚ) := by
    rw [le_div_iff₀ hnq]
    have : ((⌊q / (n : ℚ)⌋ * n : ℤ) : ℚ) ≤ q := by
      push_cast
      calc ((⌊q / (n : ℚ)⌋ : ℤ) : ℚ) * (n : ℚ) ≤ q / n * n := by
            exact mul_le_mul_of_nonneg_right (Int.floor_le _) (le_of_lt hnq)
        _ = q := by field_simp
    have h2 : (⌊q / (n : ℚ)⌋ * n : ℤ) ≤ ⌊q⌋ := Int.le_floor.mpr this
    exact_mod_cast h2
  have h2 : ((⌊q⌋ : ℤ) : ℚ) / (n : ℚ) < (⌊q / (n : ℚ)⌋ : ℚ) + 1 := by
    rw [div_lt_iff₀ hnq]
    have hq : q < ((⌊q / (n : ℚ)⌋ + 1 : ℤ) : ℚ) * (n : ℚ) := by
      push_cast
      have := Int.lt_floor_add_one (q / (n : ℚ))
      calc q = q / n * n := by field_simp
        _ < ((⌊q / (n : ℚ)⌋ : ℤ) + 1) * n := by
            exact mul_lt_mul_of_pos_right this hnq
    have h3 : ⌊q⌋ < (⌊q / (n : ℚ)⌋ + 1) * n := by
      have := Int.floor_le_floor (le_of_lt hq)
      have h4 : (⌊q⌋ : ℚ) ≤ q := Int.floor_le q
      have h5 : (⌊q⌋ : ℚ) < ((⌊q / (n : ℚ)⌋ + 1 : ℤ) : ℚ) * (n : ℚ) :=
        lt_of_le_of_lt h4 hq
      exact_mod_cast h5
    calc ((⌊q⌋ : ℤ) : ℚ) < (((⌊q / (n : ℚ)⌋ + 1) * n : ℤ) : ℚ) := by exact_mod_cast h3
      _ = ((⌊q / (n : ℚ)⌋ : ℤ) + 1) * (n : ℚ) := by push_cast; ring
  have := Int.floor_eq_iff.mpr ⟨h1, h2⟩
  exact this

/-- Rounding a timestamp that is an exact number of seconds. -/
theorem roundedMinuteNearest_of_sec (m : ℤ) :
    roundedMinuteNearest (1000 * m) =
      1000 * (m - m % 60 + if 30 ≤ m % 60 then 60 else 0) := by
  unfold roundedMinuteNearest addSeconds
  rw [getUTCSeconds_of_sec]
  split <;> ring

theorem ite_lt_eq_max (a b : ℚ) : (if a < b then b else a) = max a b := by
  split
  · exact (max_eq_right (le_of_lt (by assumption))).symm
  · exact (max_eq_left (not_lt.mp (by assumption))).symm

theorem ite_lt_eq_min (a b : ℚ) : (if a < b then a else b) = min a b := by
  split
  · exact (min_eq_left (le_of_lt (by assumption))).symm
  · exact (min_eq_right (not_lt.mp (by assumption))).symm

theorem sinDemo_agrees_with_real_sine :
    ((sinDemo 0 : ℚ) : ℝ) = Real.sin ((0 : ℝ) * Real.pi / 180) ∧
    ((sinDemo 90 : ℚ) : ℝ) = Real.sin ((90 : ℝ) * Real.pi / 180) := by
  constructor
  · have h0 : sinDemo 0 = 0 := by decide
    rw [h0]
    norm_num
  · have h90 : sinDemo 90 = 1 := by decide
    rw [h90]
    have : (90 : ℝ) * Real.pi / 180 = Real.pi / 2 := by ring
    rw [this, Real.sin_pi_div_two]
    norm_num


/-! ### Claim C5: signs of the nutation-in-longitude four-term formula -/

/-- Claim C5 counterexample: at `Omega = 0`, `L0 = Lp = 45` (where the
degree-based sine takes the exact values 0 and 1, see
`sinDemo_agrees_with_real_sine`), the code value of `nutationInLongitude`
differs from the value claimed by the spec formula
`(-17.2 sin Omega + 1.32 sin 2 L0 + 0.23 sin 2 Lp + 0.21 sin 2 Omega) / 3600`:
the code subtracts the second and third terms instead of adding them. -/
theorem nutation_sign_counterexample :
    nutationInLongitude sinDemo 0 45 45 0 ≠
      (-17.2 * sinDemo 0 + 1.32 * sinDemo (2 * 45) + 0.23 * sinDemo (2 * 45)
        + 0.21 * sinDemo (2 * 0)) / 3600 := by
  norm_num [nutationInLongitude, sinDemo]

/-- Claim C5 (amended): `nutationInLongitude` computes
`(-17.2 sin Omega - 1.32 sin 2 L0 - 0.23 sin 2 Lp + 0.21 sin 2 Omega) / 3600`,
i.e. the signs of the four terms are minus, minus, minus, plus, for every
degree-based sine function and all arguments. -/
theorem nutation_formula_amended (sinD : ℚ → ℚ) (T L0 Lp Om : ℚ) :
    nutationInLongitude sinD T L0 Lp Om =
      (-17.2 * sinD Om - 1.32 * sinD (2 * L0) - 0.23 * sinD (2 * Lp)
        + 0.21 * sinD (2 * Om)) / 3600 := by
  unfold nutationInLongitude
  ring

/-! ### Claim C6: the two copies of `seasonAdjustedEveningTwilight` -/

/-- Claim C6 counterexample: at latitude 55, day of year 81 of 2023 (so the
blend evaluates exactly at the second coefficient `b`), the engine copy and
the `utils/polar` copy of `seasonAdjustedEveningTwilight` return different
instants for shafaq `general`: the engine copy adds round(82.16 * 60) = 4930
seconds to sunset while the polar copy adds round(77.05 * 60) = 4623. -/
theorem evening_twilight_copies_disagree :
    seasonAdjustedEveningTwilight 55 81 2023 0 Shafaq.general ≠
      polarSeasonAdjustedEveningTwilight 55 81 2023 0 Shafaq.general := by
  norm_num [seasonAdjustedEveningTwilight, polarSeasonAdjustedEveningTwilight,
    daysSinceSolstice, isLeapYear, addSeconds, jsRound]

/-- Claim C6 (amended): the engine copy of `seasonAdjustedEveningTwilight`
does use the Abyad coefficient row for shafaq `general` (the two shafaq
choices agree identically there), but the `utils/polar` copy uses a
different row `(75 + 25.60, 75 + 2.05, 75 - 9.21, 75 + 6.14) |lat| / 55`,
so the two copies of the function agree for `general` only where the rows
coincide, e.g. at latitude 0. -/
theorem evening_twilight_general_amended :
    (∀ (lat : ℚ) (doy yr base : ℤ),
        seasonAdjustedEveningTwilight lat doy yr base Shafaq.general =
          seasonAdjustedEveningTwilight lat doy yr base Shafaq.abyad) ∧
    (∀ (doy yr base : ℤ),
        polarSeasonAdjustedEveningTwilight 0 doy yr base Shafaq.general =
          seasonAdjustedEveningTwilight 0 doy yr base Shafaq.general) := by
  constructor
  · intro lat doy yr base
    rfl
  · intro doy yr base
    simp [seasonAdjustedEveningTwilight, polarSeasonAdjustedEveningTwilight,
      abs_zero, mul_zero, add_zero]

/-! ### Claim C2: interval Isha is a fixed offset from sunset -/

/-- Difference of two nearest-minute roundings of instants that sit a
whole number of minutes apart on the same second grid. -/
theorem roundedMinuteNearest_diff (n a b : ℤ) (h : (a - b) % 60 = 0) :
    roundedMinuteNearest (1000 * (n + a)) - roundedMinuteNearest (1000 * (n + b))
      = 1000 * (a - b) := by
  rw [roundedMinuteNearest_of_sec, roundedMinuteNearest_of_sec]
  have h1 : (n + a) % 60 = (n + b) % 60 := by omega
  rw [h1]
  split <;> ring

/-- Claim C2: when a method parameterizes Isha as an interval of `k`
minutes, the pre-adjustment Isha instant is `sunset + k` minutes (a fixed
offset from sunset, not from maghrib); consequently the UmmAlQura and Qatar
engine results satisfy `|isha - maghrib - 90 min| ≤ 1 min` after rounding
(UmmAlQura gives exactly 89 minutes, Qatar exactly 90). -/
theorem interval_isha_offset_and_ninety_minutes :
    (∀ (params : MethodParams) (mc : Option MethodCode) (lat : ℚ) (doy yr : ℤ)
        (o : SolarDayOutputs) (angleIsha k : ℚ),
        params.isha = RawValue.minStr k → mc ≠ some MethodCode.Moonsighting →
        calculateIshaTime params mc lat doy yr o angleIsha =
          o.sunsetHours + k / 60) ∧
    (∀ (lat : ℚ) (doy yr : ℤ) (o : SolarDayOutputs),
        |(calculatePrecisePrayerTimes (CALCULATION_METHODS MethodCode.UmmAlQura)
              (some MethodCode.UmmAlQura) lat doy yr o).isha -
            (calculatePrecisePrayerTimes (CALCULATION_METHODS MethodCode.UmmAlQura)
              (some MethodCode.UmmAlQura) lat doy yr o).maghrib - 5400000|
          ≤ 60000 ∧
        (calculatePrecisePrayerTimes (CALCULATION_METHODS MethodCode.Qatar)
              (some MethodCode.Qatar) lat doy yr o).isha -
            (calculatePrecisePrayerTimes (CALCULATION_METHODS MethodCode.Qatar)
              (some MethodCode.Qatar) lat doy yr o).maghrib = 5400000) := by
  have part1 : ∀ (params : MethodParams) (mc : Option MethodCode) (lat : ℚ)
      (doy yr : ℤ) (o : SolarDayOutputs) (angleIsha k : ℚ),
      params.isha = RawValue.minStr k → mc ≠ some MethodCode.Moonsighting →
      calculateIshaTime params mc lat doy yr o angleIsha =
        o.sunsetHours + k / 60 := by
    intro params mc lat doy yr o angleIsha k h1 h2
    simp only [calculateIshaTime, h1, parseAngleOrInterval]
    rw [if_neg h2, if_neg (fun hc => h2 hc.1)]
  refine ⟨part1, ?_⟩
  intro lat doy yr o
  set n : ℤ := ⌊o.sunsetHours * 3600⌋ with hn
  have h90 : ⌊(o.sunsetHours + 90 / 60) * 3600⌋ = n + 5400 := by
    have : (o.sunsetHours + 90 / 60) * 3600
        = o.sunsetHours * 3600 + ((5400 : ℤ) : ℚ) := by push_cast; ring
    rw [this, Int.floor_add_int]
  have h1m : ⌊(o.sunsetHours + 1 / 60) * 3600⌋ = n + 60 := by
    have : (o.sunsetHours + 1 / 60) * 3600
        = o.sunsetHours * 3600 + ((60 : ℤ) : ℚ) := by push_cast; ring
    rw [this, Int.floor_add_int]
  constructor
  · have hi : calculateIshaTime (CALCULATION_METHODS MethodCode.UmmAlQura)
        (some MethodCode.UmmAlQura) lat doy yr o o.ishaAngleHours
        = o.sunsetHours + (90 : ℚ) / 60 :=
      part1 _ _ _ _ _ _ _ _ rfl (by decide)
    have hm : calculateMaghribTime (CALCULATION_METHODS MethodCode.UmmAlQura) o
        o.maghribAngleHours = o.sunsetHours + (1 : ℚ) / 60 := rfl
    have hzi : ¬((CALCULATION_METHODS MethodCode.UmmAlQura).adjustments.isha ≠ 0) := by
      norm_num [CALCULATION_METHODS, Adjustments.zero]
    have hzm : ¬((CALCULATION_METHODS MethodCode.UmmAlQura).adjustments.maghrib ≠ 0) := by
      norm_num [CALCULATION_METHODS, Adjustments.zero]
    have heq : (calculatePrecisePrayerTimes (CALCULATION_METHODS MethodCode.UmmAlQura)
          (some MethodCode.UmmAlQura) lat doy yr o).isha
        - (calculatePrecisePrayerTimes (CALCULATION_METHODS MethodCode.UmmAlQura)
          (some MethodCode.UmmAlQura) lat doy yr o).maghrib = 5340000 := by
      simp only [calculatePrecisePrayerTimes, roundTimes, applyMethodAdjustments,
        rawPrayerTimes]
      rw [hi, hm, if_neg hzi, if_neg hzm]
      simp only [createUTCDateFromHours_eq]
      rw [h90, h1m]
      have := roundedMinuteNearest_diff n 5400 60 (by decide)
      omega
    rw [heq]
    norm_num
  · have hi : calculateIshaTime (CALCULATION_METHODS MethodCode.Qatar)
        (some MethodCode.Qatar) lat doy yr o o.ishaAngleHours
        = o.sunsetHours + (90 : ℚ) / 60 :=
      part1 _ _ _ _ _ _ _ _ rfl (by decide)
    have hm : calculateMaghribTime (CALCULATION_METHODS MethodCode.Qatar) o
        o.maghribAngleHours = o.sunsetHours + (1 : ℚ) / 60 := rfl
    have hpi : (CALCULATION_METHODS MethodCode.Qatar).adjustments.isha ≠ 0 := by
      norm_num [CALCULATION_METHODS]
    have hpm : (CALCULATION_METHODS MethodCode.Qatar).adjustments.maghrib ≠ 0 := by
      norm_num [CALCULATION_METHODS]
    simp only [calculatePrecisePrayerTimes, roundTimes, applyMethodAdjustments,
      rawPrayerTimes]
    rw [hi, hm, if_pos hpi, if_pos hpm]
    simp only [createUTCDateFromHours_eq]
    rw [h90, h1m]
    have h3 : addMinutes (1000 * (n + 5400))
        ((CALCULATION_METHODS MethodCode.Qatar).adjustments.isha)
        = 1000 * (n + 5580) := by
      have hval : (CALCULATION_METHODS MethodCode.Qatar).adjustments.isha
          = ((3 : ℤ) : ℚ) := by norm_num [CALCULATION_METHODS]
      rw [hval, addMinutes_int]
      ring
    have h2 : addMinutes (1000 * (n + 60))
        ((CALCULATION_METHODS MethodCode.Qatar).adjustments.maghrib)
        = 1000 * (n + 180) := by
      have hval : (CALCULATION_METHODS MethodCode.Qatar).adjustments.maghrib
          = ((2 : ℤ) : ℚ) := by norm_num [CALCULATION_METHODS]
      rw [hval, addMinutes_int]
      ring
    rw [h3, h2]
    have := roundedMinuteNearest_diff n 5580 180 (by decide)
    omega

/-- Witness for claim C2 at a concrete input: UmmAlQura (interval 90) with
sunset at 18:00 gives a pre-adjustment Isha of 19:30 decimal hours. -/
theorem interval_isha_offset_witness :
    calculateIshaTime (CALCULATION_METHODS MethodCode.UmmAlQura)
        (some MethodCode.UmmAlQura) 24 172 2024
        (SolarDayOutputs.mk 6 18 12 15 5 0 0 6) 0 = (18 : ℚ) + 90 / 60 :=
  interval_isha_offset_and_ninety_minutes.1 _ _ 24 172 2024 _ 0 90 rfl (by decide)

/-! ### Claim C4: Moonsighting at high latitude uses a seventh of the night -/

/-- Claim C4 counterexample: with method Moonsighting at latitude 55 on
January 1st 2023 (sunrise 8:00, sunset 15:00, next sunrise 8:00), the
returned Fajr is not `sunrise - night/7`: the night-seventh candidate
(about 137 minutes before sunrise) is superseded by the season-adjusted
morning twilight (about 103 minutes before sunrise), which is later. -/
theorem moonsighting_night_seventh_counterexample :
    calculateFajrTime (CALCULATION_METHODS MethodCode.Moonsighting)
        (some MethodCode.Moonsighting) 55 1 2023
        (SolarDayOutputs.mk 8 15 12 13 6 17 0 8) 6 ≠
      (createUTCDateFromHours 8 : ℚ) / 3600000 -
        (((86400000 + createUTCDateFromHours 8 - createUTCDateFromHours 15 : ℤ) : ℚ)
            / 1000) / 7 / 3600 := by
  simp only [calculateFajrTime, createUTCDateFromHours_eq]
  norm_num [seasonAdjustedMorningTwilight, daysSinceSolstice, isLeapYear,
    addSeconds, jsRound, jsTrunc, abs_of_nonneg]

/-- Claim C4 (amended): with method Moonsighting and latitude of magnitude at
least 55 the angle-based Fajr and Isha solver outputs are indeed discarded
(the results do not depend on them), and the night-seventh values
`sunrise - night/7` and `sunset + night/7` (night = next sunrise minus
sunset) become the candidates; but the returned Fajr is the LATER of the
night-seventh candidate and the season-adjusted morning twilight, and the
returned Isha the EARLIER of the night-seventh candidate and the
season-adjusted evening twilight, not unconditionally the night-seventh
value. -/
theorem moonsighting_high_lat_amended (params : MethodParams)
    (mc : Option MethodCode) (lat : ℚ) (doy yr : ℤ) (o : SolarDayOutputs)
    (a1 a2 b1 b2 : ℚ) (hmc : mc = some MethodCode.Moonsighting)
    (hlat : 55 ≤ |lat|) :
    calculateFajrTime params mc lat doy yr o a1
      = calculateFajrTime params mc lat doy yr o a2 ∧
    calculateIshaTime params mc lat doy yr o b1
      = calculateIshaTime params mc lat doy yr o b2 ∧
    calculateFajrTime params mc lat doy yr o a1 =
      max ((jsTrunc ((createUTCDateFromHours o.sunriseHours : ℚ) -
              ((((86400000 + createUTCDateFromHours o.tomorrowSunriseHours
                    - createUTCDateFromHours o.sunsetHours : ℤ) : ℚ) / 1000) / 7)
                * 1000) : ℚ) / 3600000)
          ((seasonAdjustedMorningTwilight lat doy yr
              (createUTCDateFromHours o.sunriseHours) : ℚ) / 3600000) ∧
    calculateIshaTime params mc lat doy yr o b1 =
      min ((seasonAdjustedEveningTwilight lat doy yr
              (createUTCDateFromHours o.sunsetHours)
              (match params.shafaq with
               | some Shafaq.ahmer => Shafaq.ahmer
               | some Shafaq.abyad => Shafaq.abyad
               | _ => Shafaq.general) : ℚ) / 3600000)
          ((jsTrunc ((createUTCDateFromHours o.sunsetHours : ℚ) +
              ((((86400000 + createUTCDateFromHours o.tomorrowSunriseHours
                    - createUTCDateFromHours o.sunsetHours : ℤ) : ℚ) / 1000) / 7)
                * 1000) : ℚ) / 3600000) := by
  subst hmc
  have hc : True ∧ 55 ≤ |lat| := ⟨trivial, hlat⟩
  refine ⟨?_, ?_, ?_, ?_⟩
  · simp only [calculateFajrTime]
    rw [if_pos hc]
    simp only [if_true]
    rw [if_pos hc]
  · simp only [calculateIshaTime]
    rw [if_pos hc]
    simp only [if_true]
    rw [if_pos hc]
  · simp only [calculateFajrTime]
    rw [if_pos hc, ite_lt_eq_max]
    simp only [if_true]
  · simp only [calculateIshaTime]
    rw [if_pos hc, ite_lt_eq_min]
    simp only [if_true]

/-- Witness for claim C4 at a concrete input: at latitude 55 the Moonsighting
Fajr result is independent of the angle-based solver output. -/
theorem moonsighting_high_lat_witness :
    calculateFajrTime (CALCULATION_METHODS MethodCode.Moonsighting)
        (some MethodCode.Moonsighting) 55 1 2023
        (SolarDayOutputs.mk 8 15 12 13 6 17 0 8) 6
      = calculateFajrTime (CALCULATION_METHODS MethodCode.Moonsighting)
        (some MethodCode.Moonsighting) 55 1 2023
        (SolarDayOutputs.mk 8 15 12 13 6 17 0 8) 7 :=
  (moonsighting_high_lat_amended _ _ 55 1 2023 _ 6 7 0 0 rfl
    (by norm_num [abs_of_nonneg])).1

/-! ### Claims C1 and C10: adjustment composition and the user-adjustment
frame property -/

theorem roundTimes_setPrayer (t : PrayerTimesZ) (p : PrayerName) (v : ℤ) :
    roundTimes (setPrayer t p v) = setPrayer (roundTimes t) p (roundedMinuteNearest v) := by
  cases p <;> rfl

theorem getPrayer_roundTimes (t : PrayerTimesZ) (p : PrayerName) :
    getPrayer (roundTimes t) p = roundedMinuteNearest (getPrayer t p) := by
  cases p <;> rfl

/-- `addMinutes` with a whole number of minutes commutes with nearest-minute
rounding. -/
theorem addMinutes_roundedMinuteNearest_comm (t : ℤ) (a : ℚ) (ha : a.den = 1) :
    addMinutes (roundedMinuteNearest t) a = roundedMinuteNearest (addMinutes t a) := by
  have hk : a = (a.num : ℚ) := ((Rat.den_eq_one_iff a).mp ha).symm
  rw [hk, addMinutes_int, addMinutes_int, roundedMinuteNearest_add_min]

/-- One step of the user-adjustments fold over the fields. -/
theorem applyUserAdjustments_cons (t : PrayerTimesZ) (e : PrayerName × ℚ)
    (es : List (PrayerName × ℚ)) :
    applyUserAdjustments t (e :: es) =
      applyUserAdjustments
        (if e.1 = PrayerName.sunrise then t
         else setPrayer t e.1 (addMinutes (getPrayer t e.1) e.2)) es := rfl

theorem userStep_roundTimes_comm (t : PrayerTimesZ) (e : PrayerName × ℚ)
    (ha : (e.2).den = 1) :
    (if e.1 = PrayerName.sunrise then roundTimes t
     else setPrayer (roundTimes t) e.1
       (addMinutes (getPrayer (roundTimes t) e.1) e.2)) =
    roundTimes (if e.1 = PrayerName.sunrise then t
     else setPrayer t e.1 (addMinutes (getPrayer t e.1) e.2)) := by
  split
  · rfl
  · rw [roundTimes_setPrayer, getPrayer_roundTimes,
      addMinutes_roundedMinuteNearest_comm _ _ ha]

/-- When every user adjustment is a whole number of minutes, applying the
user adjustments after rounding equals rounding after applying them. -/
theorem applyUserAdjustments_roundTimes (entries : List (PrayerName × ℚ)) :
    ∀ (t : PrayerTimesZ), (∀ e ∈ entries, (e.2).den = 1) →
    applyUserAdjustments (roundTimes t) entries =
      roundTimes (applyUserAdjustments t entries) := by
  induction entries with
  | nil => intro t _; rfl
  | cons e es ih =>
    intro t h
    rw [applyUserAdjustments_cons, applyUserAdjustments_cons,
      userStep_roundTimes_comm t e (h e (by simp))]
    exact ih _ (fun x hx => h x (by simp [hx]))

/-- Claim C1 counterexample: with the Custom method (no built-in
adjustments), a raw Fajr of exactly 5:00 and a user Fajr adjustment of half
a minute, the orchestrator returns 5:00:30 (the engine rounds before the
user adjustment is added), while the claimed order (apply both adjustments,
then round) yields 5:01:00. -/
theorem adjustments_rounding_order_counterexample :
    (orchestratedTimes (CALCULATION_METHODS MethodCode.Custom) none 0 1 2024
        (SolarDayOutputs.mk 6 18 12 15 5 19.5 0 6)
        [(PrayerName.fajr, 1 / 2)]).fajr ≠
      roundedMinuteNearest (addMinutes (createUTCDateFromHours 5)
        ((CALCULATION_METHODS MethodCode.Custom).adjustments.fajr + 1 / 2)) := by
  have hmc : (none : Option MethodCode) ≠ some MethodCode.Moonsighting := by simp
  simp only [orchestratedTimes, calculatePrecisePrayerTimes, rawPrayerTimes,
    calculateFajrTime, calculateMaghribTime, calculateIshaTime,
    parseAngleOrInterval, if_neg hmc, if_neg (fun hc => hmc (And.left hc)),
    applyMethodAdjustments, roundTimes, applyUserAdjustments, List.foldl_cons,
    List.foldl_nil, CALCULATION_METHODS, Adjustments.zero,
    createUTCDateFromHours_eq, getPrayer, setPrayer]
  norm_num [roundedMinuteNearest, getUTCSeconds, addSeconds, addMinutes, jsTrunc]
  decide

/-- Claim C1 (amended): the engine applies the method adjustments to the raw
instants and rounds each instant to the nearest minute; the user adjustments
are applied additively AFTER that rounding, with no further rounding.  When
every user adjustment is a whole number of minutes this coincides with the
claimed order (method adjustments, then user adjustments, then one final
rounding). -/
theorem adjustments_rounding_order_amended (params : MethodParams)
    (mc : Option MethodCode) (lat : ℚ) (doy yr : ℤ) (o : SolarDayOutputs)
    (entries : List (PrayerName × ℚ)) (h : ∀ e ∈ entries, (e.2).den = 1) :
    orchestratedTimes params mc lat doy yr o entries =
      roundTimes (applyUserAdjustments
        (applyMethodAdjustments (rawPrayerTimes params mc lat doy yr o)
          params.adjustments) entries) := by
  unfold orchestratedTimes calculatePrecisePrayerTimes
  exact applyUserAdjustments_roundTimes entries _ h

/-- Witness for claim C1 (amended) at a concrete input: a whole-minute user
adjustment of the Dhuhr time commutes with the final rounding. -/
theorem adjustments_rounding_order_witness :
    orchestratedTimes (CALCULATION_METHODS MethodCode.Custom) none 0 1 2024
        (SolarDayOutputs.mk 6 18 12 15 5 19.5 0 6) [(PrayerName.dhuhr, 2)] =
      roundTimes (applyUserAdjustments
        (applyMethodAdjustments
          (rawPrayerTimes (CALCULATION_METHODS MethodCode.Custom) none 0 1 2024
            (SolarDayOutputs.mk 6 18 12 15 5 19.5 0 6))
          (CALCULATION_METHODS MethodCode.Custom).adjustments)
        [(PrayerName.dhuhr, 2)]) :=
  adjustments_rounding_order_amended _ none 0 1 2024 _ _
    (by intro e he; simp only [List.mem_singleton] at he; rw [he]; rfl)

theorem applyUserAdjustments_sunset (entries : List (PrayerName × ℚ)) :
    ∀ t : PrayerTimesZ, (applyUserAdjustments t entries).sunset = t.sunset := by
  induction entries with
  | nil => intro t; rfl
  | cons e es ih =>
    intro t
    rw [applyUserAdjustments_cons, ih]
    split
    · rfl
    · exact setPrayer_sunset t e.1 _

theorem applyUserAdjustments_sunrise (entries : List (PrayerName × ℚ)) :
    ∀ t : PrayerTimesZ,
      getPrayer (applyUserAdjustments t entries) PrayerName.sunrise =
        getPrayer t PrayerName.sunrise := by
  induction entries with
  | nil => intro t; rfl
  | cons e es ih =>
    intro t
    rw [applyUserAdjustments_cons, ih]
    split
    · rfl
    · exact getPrayer_setPrayer_ne t e.1 PrayerName.sunrise _
        (fun hs => (by simp [hs] at *))

theorem applyUserAdjustments_lookup (entries : List (PrayerName × ℚ)) :
    ∀ t : PrayerTimesZ, (entries.map Prod.fst).Nodup →
    ∀ p : PrayerName, p ≠ PrayerName.sunrise →
      getPrayer (applyUserAdjustments t entries) p =
        (match entries.find? (fun e => e.1 == p) with
         | some e => addMinutes (getPrayer t p) e.2
         | none => getPrayer t p) := by
  induction entries with
  | nil => intro t _ p _; rfl
  | cons e es ih =>
    intro t hnd p hp
    have hnd1 : e.1 ∉ es.map Prod.fst := (List.nodup_cons.mp hnd).1
    have hnd2 : (es.map Prod.fst).Nodup := (List.nodup_cons.mp hnd).2
    rw [applyUserAdjustments_cons]
    by_cases hpe : e.1 = p
    · have hf : List.find? (fun x => x.1 == p) (e :: es) = some e := by
        simp [List.find?_cons, hpe]
      have hnone : List.find? (fun x => x.1 == p) es = none := by
        rw [List.find?_eq_none]
        intro x hx
        simp only [beq_iff_eq]
        intro hxp
        exact hnd1 (by
          rw [hpe, ← hxp]
          exact List.mem_map.mpr ⟨x, hx, rfl⟩)
      rw [hf, ih _ hnd2 p hp, hnone]
      have hes : e.1 ≠ PrayerName.sunrise := fun hs => hp (hpe ▸ hs)
      rw [if_neg hes]
      subst hpe
      exact getPrayer_setPrayer_same t e.1 _
    · have hf : List.find? (fun x => x.1 == p) (e :: es) =
          List.find? (fun x => x.1 == p) es := by
        simp [List.find?_cons, hpe]
      rw [hf, ih _ hnd2 p hp]
      have hg : getPrayer
          (if e.1 = PrayerName.sunrise then t
           else setPrayer t e.1 (addMinutes (getPrayer t e.1) e.2)) p =
          getPrayer t p := by
        split
        · rfl
        · exact getPrayer_setPrayer_ne t e.1 p _ (fun h => hpe h.symm)
      rw [hg]

/-- Claim C10: applying user adjustments leaves the sunset field and the
sunrise field unchanged (a user-supplied sunrise entry is silently
ignored), shifts every other prayer present in the map by exactly its
minute value via `addMinutes`, and leaves every prayer absent from the map
unchanged. -/
theorem user_adjustments_frame (t : PrayerTimesZ)
    (entries : List (PrayerName × ℚ)) (hnd : (entries.map Prod.fst).Nodup) :
    (applyUserAdjustments t entries).sunset = t.sunset ∧
    getPrayer (applyUserAdjustments t entries) PrayerName.sunrise =
      getPrayer t PrayerName.sunrise ∧
    ∀ p : PrayerName, p ≠ PrayerName.sunrise →
      getPrayer (applyUserAdjustments t entries) p =
        (match entries.find? (fun e => e.1 == p) with
         | some e => addMinutes (getPrayer t p) e.2
         | none => getPrayer t p) :=
  ⟨applyUserAdjustments_sunset entries t, applyUserAdjustments_sunrise entries t,
   applyUserAdjustments_lookup entries t hnd⟩

/-- Witness for claim C10 at a concrete input: a user map carrying a
sunrise entry and a dhuhr entry leaves sunrise untouched. -/
theorem user_adjustments_frame_witness :
    getPrayer (applyUserAdjustments (PrayerTimesZ.mk 1 2 3 4 5 6 7)
        [(PrayerName.sunrise, 5), (PrayerName.dhuhr, 7)]) PrayerName.sunrise =
      getPrayer (PrayerTimesZ.mk 1 2 3 4 5 6 7) PrayerName.sunrise :=
  (user_adjustments_frame (PrayerTimesZ.mk 1 2 3 4 5 6 7)
    [(PrayerName.sunrise, 5), (PrayerName.dhuhr, 7)] (by decide)).2.1

/-! ### Claim C7: the validator and its day-length checks -/

/-- Claim C7: evaluation of the validator at the failing input.  At latitude
30 with fajr 08:00, sunrise 09:00, dhuhr 10:00, asr 11:00, maghrib 12:00,
isha 13:00 the day length is 3 hours, outside the claimed 4 to 20 hour
window for latitudes below 60, yet the validator reports no issue at all
and marks the result valid: the `else if (latitudeAbs > 60)` branch that
would perform the 4 to 20 hour check is unreachable (it sits inside the
branch where the absolute latitude is below 60). -/
theorem validator_moderate_day_length_eval :
    validateCalculationResults
        (PrayerTimesZ.mk 28800000 32400000 36000000 39600000 0 43200000
          46800000) 30 = ([], true) := by
  norm_num [validateCalculationResults, abs_of_nonneg]

set_option maxHeartbeats 1600000 in
/-- For any input with `|latitude| < 60` the validator can never report the
moderate-latitude day-length issue: the branch guarding it is dead code. -/
theorem validator_day_length_check_unreachable (times : PrayerTimesZ)
    (lat : ℚ) (h : |lat| < 60) :
    Issue.dayLengthUnusual ∉ (validateCalculationResults times lat).1 := by
  intro hmem
  simp only [validateCalculationResults, if_neg (not_le.mpr h),
    if_neg (not_lt.mpr (le_of_lt h)), List.append_nil,
    List.mem_append] at hmem
  split_ifs at hmem <;> simp_all

/-! ### Claim C8: Sunnah time derivations -/

/-- The rounding rule stated by the claim, applied to an exact rational
millisecond instant: clear the (floored) seconds field and add one minute
when that field is at least 30. -/
def nearestMinuteOfInstant (q : ℚ) : ℤ :=
  (if 30 ≤ ⌊q / 1000⌋ % 60 then ⌊q / 1000⌋ - ⌊q / 1000⌋ % 60 + 60
   else ⌊q / 1000⌋ - ⌊q / 1000⌋ % 60) * 1000

/-- The Sunnah rounding of a truncated nonnegative rational instant agrees
with the rounding of the exact instant. -/
theorem roundToNearestMinuteSunnah_trunc (q : ℚ) (hq : 0 ≤ q) :
    roundToNearestMinuteSunnah (jsTrunc q) = nearestMinuteOfInstant q := by
  rw [jsTrunc_eq_floor_of_nonneg hq]
  have h1000 : ⌊((⌊q⌋ : ℤ) : ℚ) / 1000⌋ = ⌊q / 1000⌋ := by
    have := floor_floor_div q 1000 (by norm_num)
    simpa using this
  have hediv : ⌊q / 1000⌋ = ⌊q⌋ / 1000 := by
    rw [← h1000]
    have := Rat.floor_intCast_div_natCast ⌊q⌋ 1000
    simpa using this
  have e1 : 1000 * (⌊q⌋ / 1000) + ⌊q⌋ % 1000 = ⌊q⌋ := Int.ediv_add_emod _ _
  have hsec : getUTCSeconds ⌊q⌋ = ⌊q / 1000⌋ % 60 := by
    unfold getUTCSeconds
    rw [h1000]
  unfold roundToNearestMinuteSunnah nearestMinuteOfInstant msField
  rw [hsec]
  split <;> omega

/-- Claim C8: for valid inputs the Sunnah derivation returns
`first_third = maghrib + N/3`, `middle = maghrib + N/2`,
`last_third = maghrib + 2N/3` with `N = tomorrow fajr - maghrib`, and
`duha_start = sunrise + 15 min`, `duha_end = dhuhr - 15 min`, each of the
five instants rounded to the nearest whole minute (seconds at least 30
round up, else down); the reported night duration is the rounded minute
count of `N`. -/
theorem sunnah_times_formulas (m f r d : ℤ) (hm : 0 ≤ m) (hmf : m ≤ f)
    (hr : 0 ≤ r) (hd : 900000 ≤ d) :
    calculateSunnahTimes m f r d =
      ⟨nearestMinuteOfInstant ((m : ℚ) + ((f - m : ℤ) : ℚ) / 2),
       nearestMinuteOfInstant ((m : ℚ) + ((f - m : ℤ) : ℚ) * (2 / 3)),
       nearestMinuteOfInstant ((m : ℚ) + ((f - m : ℤ) : ℚ) / 3),
       nearestMinuteOfInstant ((r : ℚ) + 15 * 60000),
       nearestMinuteOfInstant ((d : ℚ) - 15 * 60000),
       jsRound (((f - m : ℤ) : ℚ) / 60000)⟩ := by
  have hmq : (0 : ℚ) ≤ (m : ℚ) := by exact_mod_cast hm
  have hfm : (0 : ℚ) ≤ ((f - m : ℤ) : ℚ) := by
    exact_mod_cast sub_nonneg.mpr hmf
  have hrq : (0 : ℚ) ≤ (r : ℚ) := by exact_mod_cast hr
  have hdq : (900000 : ℚ) ≤ (d : ℚ) := by exact_mod_cast hd
  simp only [calculateSunnahTimes, SunnahTimesZ.mk.injEq, and_true]
  refine ⟨?_, ?_, ?_, ?_, ?_⟩
  · exact roundToNearestMinuteSunnah_trunc _ (by linarith)
  · exact roundToNearestMinuteSunnah_trunc _ (by linarith)
  · exact roundToNearestMinuteSunnah_trunc _ (by linarith)
  · have : r + 15 * 60 * 1000 = jsTrunc ((r : ℚ) + 15 * 60000) := by
      have hcast : ((r + 900000 : ℤ) : ℚ) = (r : ℚ) + 15 * 60000 := by
        push_cast; ring
      rw [← hcast, jsTrunc_intCast]
      norm_num
    rw [this]
    exact roundToNearestMinuteSunnah_trunc _ (by linarith)
  · have : d - 15 * 60 * 1000 = jsTrunc ((d : ℚ) - 15 * 60000) := by
      have hcast : ((d - 900000 : ℤ) : ℚ) = (d : ℚ) - 15 * 60000 := by
        push_cast; ring
      rw [← hcast, jsTrunc_intCast]
      norm_num
    rw [this]
    exact roundToNearestMinuteSunnah_trunc _ (by linarith)

/-- Witness for claim C8 at a concrete input: maghrib 18:00, next fajr
28:00 (4:00 next day), sunrise 06:00, dhuhr 12:00. -/
theorem sunnah_times_formulas_witness :
    calculateSunnahTimes 64800000 100800000 21600000 43200000 =
      ⟨nearestMinuteOfInstant ((64800000 : ℚ) + ((100800000 - 64800000 : ℤ) : ℚ) / 2),
       nearestMinuteOfInstant ((64800000 : ℚ) + ((100800000 - 64800000 : ℤ) : ℚ) * (2 / 3)),
       nearestMinuteOfInstant ((64800000 : ℚ) + ((100800000 - 64800000 : ℤ) : ℚ) / 3),
       nearestMinuteOfInstant ((21600000 : ℚ) + 15 * 60000),
       nearestMinuteOfInstant ((43200000 : ℚ) - 15 * 60000),
       jsRound (((100800000 - 64800000 : ℤ) : ℚ) / 60000)⟩ :=
  sunnah_times_formulas 64800000 100800000 21600000 43200000 (by decide)
    (by decide) (by decide) (by decide)

/-! ### Claim C9: error semantics of the calculator API -/

/-- Claim C9: the engine `calculatePrayerTimes` never throws: whenever its
try block fails it returns the fallback times with `isValid = false` and a
non-empty warnings list naming the failure; and the API method
`PrayerTimeCalculator#calculate` throws exactly when the date input cannot
be parsed or the engine result is marked invalid, returning the complete
engine times otherwise. -/
theorem calculate_error_semantics :
    (∀ (c : CalcConfigZ) (e : String),
        calculatePrayerTimesInner c = Except.error e →
        calculatePrayerTimesTotal c =
          ⟨createFallbackTimes, false,
            [Warn.calcFailed ("Calculation failed: " ++ e)]⟩ ∧
        (calculatePrayerTimesTotal c).isValid = false ∧
        (calculatePrayerTimesTotal c).warnings ≠ []) ∧
    (∀ (now : ℤ) (inp : DateInputZ) (cfg : ℤ → CalcConfigZ),
        (∃ err, calculatorCalculate now inp cfg = Except.error err) ↔
          ((∃ e, parseDate now inp = Except.error e) ∨
           (∃ d, parseDate now inp = Except.ok d ∧
              (calculatePrayerTimesTotal (cfg d)).isValid = false))) ∧
    (∀ (now : ℤ) (inp : DateInputZ) (cfg : ℤ → CalcConfigZ) (d : ℤ),
        parseDate now inp = Except.ok d →
        (calculatePrayerTimesTotal (cfg d)).isValid = true →
        calculatorCalculate now inp cfg =
          Except.ok (calculatePrayerTimesTotal (cfg d)).times) := by
  refine ⟨?_, ?_, ?_⟩
  · intro c e he
    unfold calculatePrayerTimesTotal
    rw [he]
    exact ⟨rfl, rfl, by simp⟩
  · intro now inp cfg
    unfold calculatorCalculate
    cases hp : parseDate now inp with
    | error e => simp [hp]
    | ok d =>
      by_cases hv : (calculatePrayerTimesTotal (cfg d)).isValid = true
      · simp [hp, hv]
      · simp only [Bool.not_eq_true] at hv
        simp [hp, hv]
  · intro now inp cfg d hp hv
    unfold calculatorCalculate
    rw [hp]
    simp [hv]

/-- A concrete valid configuration used by the claim C9 witness. -/
def cfgGood : CalcConfigZ :=
  ⟨true, "", MethodCode.Custom, 30, 172, 2024, [], true, none,
   SolarDayOutputs.mk 6 18 12 15 4.8 19.5 0 6⟩

theorem cfgGood_isValid : (calculatePrayerTimesTotal cfgGood).isValid = true := by
  have hC : MethodCode.Custom ≠ MethodCode.Moonsighting := by decide
  norm_num [if_neg hC, calculatePrayerTimesTotal, calculatePrayerTimesInner, calcBody,
    calculatePrecisePrayerTimes, rawPrayerTimes, calculateFajrTime,
    calculateIshaTime, calculateMaghribTime, parseAngleOrInterval,
    CALCULATION_METHODS, Adjustments.zero, applyMethodAdjustments, roundTimes,
    applyUserAdjustments, validateCalculationResults, createUTCDateFromHours_eq,
    cfgGood, roundedMinuteNearest, getUTCSeconds, addSeconds, jsRound,
    List.foldl_nil, abs_of_nonneg, Issue.isCritical]

/-- Witness for claim C9 at a concrete input: a parsable date and a valid
engine result make `calculate` return the engine times. -/
theorem calculate_error_semantics_witness :
    calculatorCalculate 0 DateInputZ.noneInput (fun _ => cfgGood) =
      Except.ok (calculatePrayerTimesTotal cfgGood).times :=
  calculate_error_semantics.2.2 0 DateInputZ.noneInput (fun _ => cfgGood) 0 rfl
    cfgGood_isValid

end PrayerTimes
